import Mathlib

/-!
# Verification of the PyCOMPSs Python binding against its specification

Shallow embedding of the relevant parts of the PyCOMPSs Python binding:
* `pycompss/worker/piper/commons/executor.py` — the persistent pipe executor
  (message builders, environment handling, command dispatch loop),
* `pycompss/runtime/task/parameter.py` — the parameter model and type inference,
* `pycompss/api/mpmd_mpi.py` — the MPMD-MPI decorator core-element configuration,
* `pycompss/streams/distro_stream.py` — the streaming client stream classes.

Python strings are modelled as Lean `String`, Python ints as `Int` / `Nat`,
the process environment as a partial map `String → Option String`, and
fallible code returns `Except`.
-/

namespace PyCompss

/-! ## Common helpers for Python semantics -/

/-- Python `str.replace(" ", "_")`: single-character pattern, so equivalent to
a character map (expressed on the underlying character list). -/
def replaceSpacesByUnderscores (s : String) : String :=
  String.mk (s.data.map (fun c => if c = ' ' then '_' else c))

/-- Python `str.split()` with no arguments: split on runs of whitespace,
discarding empty fields (expressed on the underlying character list). -/
def pySplitWhitespace (s : String) : List String :=
  ((s.data.splitOnP (fun c => c.isWhitespace)).map String.mk).filter
    (fun w => w ≠ "")

/-! ## Executor message builders
(`executor.py`, functions `build_successful_message`,
`build_compss_exception_message`, `build_exception_message`). -/

/-- `END_TASK_TAG` (`pycompss/worker/piper/commons/constants.py`, value visible
from the spec's reply shapes). -/
def END_TASK_TAG : String := "endTask"

/-- `COMPSS_EXCEPTION_TAG`. -/
def COMPSS_EXCEPTION_TAG : String := "compssExceptionTask"

/-- `PONG_TAG`. -/
def PONG_TAG : String := "PONG"

/-- `QUIT_TAG`. -/
def QUIT_TAG : String := "QUIT"

/-- `EXECUTE_TASK_TAG`. -/
def EXECUTE_TASK_TAG : String := "EXECUTE_TASK"

/-- `PING_TAG`. -/
def PING_TAG : String := "PING"

/-- `executor.py::build_successful_message`.
The call `build_return_params_message(new_types, new_values)` lives in
`pycompss/worker/commons/executor.py` (not under `src/`); its result string is
taken here as the opaque argument `params_msg`.
Source: `" ".join((END_TASK_TAG, str(job_id), str(exit_value), str(params) + "\n"))`. -/
def build_successful_message (params_msg : String) (job_id : String)
    (exit_value : Int) : String :=
  String.intercalate " "
    [END_TASK_TAG, job_id, toString exit_value, params_msg ++ "\n"]

/-- `executor.py::build_compss_exception_message`.
Returns the underscored exception message and the full pipe message. -/
def build_compss_exception_message (except_msg : String) (job_id : String) :
    String × String :=
  let except_msg := replaceSpacesByUnderscores except_msg
  let message := String.intercalate " "
    [COMPSS_EXCEPTION_TAG, job_id, except_msg ++ "\n"]
  (except_msg, message)

/-- `executor.py::build_exception_message`. -/
def build_exception_message (job_id : String) (exit_value : Int) : String :=
  String.intercalate " " [END_TASK_TAG, job_id, toString exit_value ++ "\n"]

/-- The reply selection of `executor.py::process_task` (lines 601–628):
`exit_value == 0` → successful message; `exit_value == 2` → COMPSs exception
message; anything else → exception message. -/
def task_reply (exit_value : Int) (except_msg : String) (params_msg : String)
    (job_id : String) : String :=
  if exit_value = 0 then
    build_successful_message params_msg job_id exit_value
  else if exit_value = 2 then
    (build_compss_exception_message except_msg job_id).2
  else
    build_exception_message job_id exit_value

/-! ## Process environment model
(`executor.py`, functions `bind_cpus`, `bind_gpus`, `setup_environment`,
`clean_environment`, and the environment-relevant slice of `process_task`).
`os.environ` is modelled as a partial map from variable names to values. -/

/-- The process environment: a partial map from variable names to values. -/
def Env : Type := String → Option String

/-- `os.environ[k] = v`. -/
def Env.set (e : Env) (k v : String) : Env :=
  fun x => if x = k then some v else e x

/-- `del os.environ[k]` (modelled as a total delete; at every call site in
`process_task` the deleted variable is present, so no `KeyError` arises). -/
def Env.del (e : Env) (k : String) : Env :=
  fun x => if x = k then none else e x

/-- `k in os.environ`. -/
def Env.mem (e : Env) (k : String) : Bool :=
  (e k).isSome

/-- The empty environment. -/
def Env.empty : Env := fun _ => none

/-- Environment effect of `executor.py::bind_cpus`: sets
`COMPSS_BINDED_CPUS` to the mask.  The `thread_affinity.setaffinity` call
does not touch the environment, so success or failure of the affinity call
is irrelevant here. -/
def bind_cpus_env (cpus : String) (e : Env) : Env :=
  e.set "COMPSS_BINDED_CPUS" cpus

/-- Environment effect of `executor.py::bind_gpus`: sets
`COMPSS_BINDED_GPUS`, `CUDA_VISIBLE_DEVICES` and `GPU_DEVICE_ORDINAL`
to the mask verbatim. -/
def bind_gpus_env (gpus : String) (e : Env) : Env :=
  ((e.set "COMPSS_BINDED_GPUS" gpus).set "CUDA_VISIBLE_DEVICES" gpus).set
    "GPU_DEVICE_ORDINAL" gpus

/-- `executor.py::setup_environment`: sets `COMPSS_NUM_NODES` to `str(cn)`,
`COMPSS_HOSTNAMES` to the joined hostnames, and `COMPSS_NUM_THREADS` and
`OMP_NUM_THREADS` to the computing-units token. -/
def setup_environment (cn : Nat) (cn_names : String) (cu : String)
    (e : Env) : Env :=
  (((e.set "COMPSS_NUM_NODES" (Nat.repr cn)).set
      "COMPSS_HOSTNAMES" cn_names).set
      "COMPSS_NUM_THREADS" cu).set "OMP_NUM_THREADS" cu

/-- `executor.py::clean_environment`: deletes `COMPSS_BINDED_CPUS` when
`cpus != "-"` and the variable is present; deletes the three GPU variables
when `gpus != "-"`; always deletes `COMPSS_HOSTNAMES`.  Note that
`COMPSS_NUM_NODES`, `COMPSS_NUM_THREADS` and `OMP_NUM_THREADS` are not
deleted. -/
def clean_environment (cpus gpus : String) (e : Env) : Env :=
  let e := if cpus ≠ "-" ∧ e.mem "COMPSS_BINDED_CPUS" then
             e.del "COMPSS_BINDED_CPUS" else e
  let e := if gpus ≠ "-" then
             ((e.del "COMPSS_BINDED_GPUS").del "CUDA_VISIBLE_DEVICES").del
               "GPU_DEVICE_ORDINAL"
           else e
  e.del "COMPSS_HOSTNAMES"

/-- Inputs of one `process_task` execution that are relevant to the
environment. `threadAffinity` is the module-level `THREAD_AFFINITY` flag;
`realAffinityFirst` is `thread_affinity.getaffinity()[0]`, read inside the
`try` block when `THREAD_AFFINITY` holds. -/
structure TaskEnvArgs where
  threadAffinity : Bool
  realAffinityFirst : Nat
  cpusMask : String
  gpusMask : String
  cn : Nat
  cnNames : String
  cu : String

/-- Environment effect of a `process_task` execution that completes without
an unhandled exception (`executor.py::process_task`): CPU binding when the
mask is not `"-"` and affinity is supported, GPU binding when the mask is
not `"-"`, then (inside the `try`) the `cpus` local is reassigned to
`str(real_affinity[0])` when affinity is supported, the environment is set
up, the dispatcher runs (external code; its own environment writes are not
part of the executor and are not modelled), and the environment is
cleaned. -/
def process_task_env (a : TaskEnvArgs) (e : Env) : Env :=
  let e := if a.cpusMask ≠ "-" ∧ a.threadAffinity then
             bind_cpus_env a.cpusMask e else e
  let e := if a.gpusMask ≠ "-" then bind_gpus_env a.gpusMask e else e
  let cpus := if a.threadAffinity then Nat.repr a.realAffinityFirst
              else a.cpusMask
  let e := setup_environment a.cn a.cnNames a.cu e
  clean_environment cpus a.gpusMask e

/-! ## Parameter model and type inference
(`parameter.py`). -/

/-- The COMPSs type tags used by `parameter.py` (class `TYPE` of
`pycompss/api/parameter.py`, which is not under `src/`; the tag names are
the ones referenced from `parameter.py` and the spec's data model). -/
inductive TYPE where
  | FILE
  | DIRECTORY
  | COLLECTION
  | EXTERNAL_STREAM
  | EXTERNAL_PSCO
  | BOOLEAN
  | STRING
  | INT
  | LONG
  | DOUBLE
  | OBJECT
  deriving DecidableEq, Repr

/-- Parameter directions (`DIRECTION` of `pycompss/api/parameter.py`). -/
inductive DIRECTION where
  | IN
  | OUT
  | INOUT
  | CONCURRENT
  | COMMUTATIVE
  deriving DecidableEq, Repr

/-- Stream bindings (`IOSTREAM` of `pycompss/api/parameter.py`). -/
inductive IOSTREAM where
  | UNSPECIFIED
  | STDIN
  | STDOUT
  | STDERR
  deriving DecidableEq, Repr

/-- `IS_PYTHON3` (`pycompss/runtime/commons`): the binding runs on
Python 3. -/
def IS_PYTHON3 : Bool := true

/-- `PYTHON_MAX_INT = sys.maxsize` (`parameter.py` line 506): the platform
maximum signed size, `2^63 - 1` on the 64-bit CPython the binding targets. -/
def PYTHON_MAX_INT : Int := 2 ^ 63 - 1

/-- `JAVA_MAX_INT` (`parameter.py` line 512; defined but not used by
`get_compss_type`). -/
def JAVA_MAX_INT : Int := 2147483647

/-- `JAVA_MIN_INT` (`parameter.py` line 513). -/
def JAVA_MIN_INT : Int := -2147483648

/-- A runtime Python value, as far as `parameter.py::get_compss_type`
discriminates them:
* `psco id` — a value for which `has_id` holds and `get_id` returns `id`
  (`none` models Python `None`);
* `pscoBadId` — `has_id` holds but `get_id` raises `TypeError` (a PSCO
  class, not an instance);
* `npScalar` — a numpy scalar (`isinstance(value, np.generic)`);
* `boolV`, `strV`, `intV`, `floatV` — the Python scalar types;
* `iterV` — a non-string basic iterable (`is_basic_iterable`, from
  `pycompss/util/objects/properties.py`, not under `src/`; modelled from the
  spec as the non-string iterables);
* `objV` — any other object. -/
inductive PyValue where
  | psco (id : Option String)
  | pscoBadId
  | npScalar
  | boolV (b : Bool)
  | strV (s : String)
  | intV (n : Int)
  | floatV (q : Rat)
  | iterV (size : Nat)
  | objV
  deriving DecidableEq, Repr

/-- `has_id(value)` (`pycompss/util/storages/persistent.py`, not under
`src/`; modelled from the spec's persistent-object probe: true exactly for
values exposing `getID`). -/
def has_id : PyValue → Bool
  | .psco _ => true
  | .pscoBadId => true
  | _ => false

/-- Python `isinstance(value, bool)`. -/
def isinstance_bool : PyValue → Bool
  | .boolV _ => true
  | _ => false

/-- Python `isinstance(value, str)`. -/
def isinstance_str : PyValue → Bool
  | .strV _ => true
  | _ => false

/-- Python `isinstance(value, int)`.  `bool` is a subtype of `int` in
Python, so this also holds for booleans. -/
def isinstance_int : PyValue → Bool
  | .intV _ => true
  | .boolV _ => true
  | _ => false

/-- Python `isinstance(value, float)`. -/
def isinstance_float : PyValue → Bool
  | .floatV _ => true
  | _ => false

/-- `is_basic_iterable(value)`. -/
def is_basic_iterable : PyValue → Bool
  | .iterV _ => true
  | _ => false

/-- The integer value of a Python value known to satisfy
`isinstance(value, int)` (`True` is `1`, `False` is `0`). -/
def pyIntValue : PyValue → Int
  | .intV n => n
  | .boolV b => if b then 1 else 0
  | _ => 0

/-- `parameter.py::get_compss_type` (lines 446–501), translated check for
check in source order.  The `IS_PYTHON3` branch is kept; the
`isinstance(value, PYCOMPSS_LONG)` check is the same as the `int` check on
Python 3 and therefore unreachable. -/
def get_compss_type (value : PyValue) (depth : Int := 0) : TYPE :=
  if has_id value then
    match value with
    | .psco id => if id ≠ none ∧ id ≠ some "None" then TYPE.EXTERNAL_PSCO
                  else TYPE.OBJECT
    | _ => TYPE.OBJECT  -- `get_id` raised `TypeError`
  else if value = .npScalar then TYPE.OBJECT
  else if isinstance_bool value then TYPE.BOOLEAN
  else if isinstance_str value then TYPE.STRING
  else if isinstance_int value then
    if IS_PYTHON3 then
      if pyIntValue value < PYTHON_MAX_INT then TYPE.INT else TYPE.LONG
    else TYPE.INT
  else if isinstance_float value then TYPE.DOUBLE
  else if depth > 0 ∧ is_basic_iterable value then TYPE.COLLECTION
  else TYPE.OBJECT

/-! ## Alias table and parameter construction
(`parameter.py`, `_param_conversion_dict_` and `get_new_parameter`). -/

/-- Python-level errors raised by the embedded code. -/
inductive PyErr where
  | attributeError (attr : String)
  | pycompssException (msg : String)
  | unexpectedMessage (tokens : List String)
  | indexError
  deriving DecidableEq, Repr

/-- `UNDEFINED_CONTENT_TYPE` (`parameter.py` line 58). -/
def UNDEFINED_CONTENT_TYPE : String := "#UNDEFINED#:#UNDEFINED#"

/-- Default prefix (`PREFIX.PREFIX` of `pycompss/api/parameter.py`, not
under `src/`; the spec's sentinel for an absent value is `"null"`).  No
claim observes this value. -/
def PREFIX_PREFIX : String := "null"

/-- `parameter.py::Parameter` with the defaults of its `__init__`
(lines 67–93).  `content_type` defaults to Python `None` (`is_object()`
tests `content_type is None`), hence `Option TYPE`. -/
structure Parameter where
  name : Option String := none
  content : Option PyValue := none
  content_type : Option TYPE := none
  direction : DIRECTION := DIRECTION.IN
  stream : IOSTREAM := IOSTREAM.UNSPECIFIED
  prefix_field : String := PREFIX_PREFIX  -- source field name `prefix` is a Lean keyword
  file_name : Option String := none
  is_future : Bool := false
  is_file_collection : Bool := false
  depth : Nat := 1
  extra_content_type : String := UNDEFINED_CONTENT_TYPE
  weight : String := "1.0"
  keep_rename : Bool := true
  deriving DecidableEq, Repr

/-- The alias keys of `_param_conversion_dict_` (`ParamAliasKeys` of
`pycompss/runtime/task/keys.py`, not under `src/`; the key names are the
ones used in `parameter.py` lines 145–356). -/
inductive ParamAliasKeys where
  | IN | OUT | INOUT | CONCURRENT | COMMUTATIVE
  | FILE | FILE_IN | FILE_OUT | FILE_INOUT
  | DIRECTORY | DIRECTORY_IN | DIRECTORY_OUT | DIRECTORY_INOUT
  | FILE_CONCURRENT | FILE_COMMUTATIVE
  | FILE_STDIN | FILE_STDERR | FILE_STDOUT
  | FILE_IN_STDIN | FILE_IN_STDERR | FILE_IN_STDOUT
  | FILE_OUT_STDIN | FILE_OUT_STDERR | FILE_OUT_STDOUT
  | FILE_INOUT_STDIN | FILE_INOUT_STDERR | FILE_INOUT_STDOUT
  | FILE_CONCURRENT_STDIN | FILE_CONCURRENT_STDERR | FILE_CONCURRENT_STDOUT
  | FILE_COMMUTATIVE_STDIN | FILE_COMMUTATIVE_STDERR | FILE_COMMUTATIVE_STDOUT
  | COLLECTION | COLLECTION_IN | COLLECTION_INOUT | COLLECTION_OUT
  | STREAM_IN | STREAM_OUT
  | COLLECTION_FILE | COLLECTION_FILE_IN | COLLECTION_FILE_INOUT
  | COLLECTION_FILE_OUT
  deriving DecidableEq, Repr

/-- A partial overlay over the `Parameter` defaults: the keyword set of one
`_param_conversion_dict_` entry. -/
structure ParamOverlay where
  content_type : Option TYPE := none
  direction : Option DIRECTION := none
  stream : Option IOSTREAM := none
  keep_rename : Option Bool := none
  is_file_collection : Option Bool := none
  deriving DecidableEq, Repr

/-- Modelled from the spec: attribute lookup on the `TYPE` constant class of
`pycompss/api/parameter.py` (not under `src/`).  The spec's data model lists
the content types OBJECT, FILE, DIRECTORY, COLLECTION, EXTERNAL_STREAM,
EXTERNAL_PSCO, BOOL, STRING, INT, LONG, DOUBLE; there is no attribute named
`EXTERNALParamDictKeys` (the spec's open questions call the occurrence of
`TYPE.EXTERNALParamDictKeys.StdIOStream` in `_param_conversion_dict_`
malformed). -/
def TYPE.attr : String → Option TYPE
  | "FILE" => some TYPE.FILE
  | "DIRECTORY" => some TYPE.DIRECTORY
  | "COLLECTION" => some TYPE.COLLECTION
  | "EXTERNAL_STREAM" => some TYPE.EXTERNAL_STREAM
  | "EXTERNAL_PSCO" => some TYPE.EXTERNAL_PSCO
  | "BOOLEAN" => some TYPE.BOOLEAN
  | "STRING" => some TYPE.STRING
  | "INT" => some TYPE.INT
  | "LONG" => some TYPE.LONG
  | "DOUBLE" => some TYPE.DOUBLE
  | "OBJECT" => some TYPE.OBJECT
  | _ => none

/-- `parameter.py::_param_conversion_dict_` (lines 145–356), entry by entry.
Building the value for a key evaluates the Python expressions of that entry;
for `STREAM_IN` and `STREAM_OUT` the content-type expression is
`TYPE.EXTERNALParamDictKeys.StdIOStream`, whose first attribute access
`TYPE.EXTERNALParamDictKeys` is evaluated here and fails. -/
def param_conversion_dict : ParamAliasKeys → Except PyErr ParamOverlay
  | .IN => .ok {}
  | .OUT => .ok { direction := some .OUT }
  | .INOUT => .ok { direction := some .INOUT }
  | .CONCURRENT => .ok { direction := some .CONCURRENT }
  | .COMMUTATIVE => .ok { direction := some .COMMUTATIVE }
  | .FILE => .ok { content_type := some .FILE, keep_rename := some false }
  | .FILE_IN => .ok { content_type := some .FILE, keep_rename := some false }
  | .FILE_OUT => .ok { content_type := some .FILE, direction := some .OUT,
                       keep_rename := some false }
  | .FILE_INOUT => .ok { content_type := some .FILE,
                         direction := some .INOUT, keep_rename := some false }
  | .DIRECTORY => .ok { content_type := some .DIRECTORY,
                        keep_rename := some false }
  | .DIRECTORY_IN => .ok { content_type := some .DIRECTORY,
                           keep_rename := some false }
  | .DIRECTORY_OUT => .ok { content_type := some .DIRECTORY,
                            direction := some .OUT,
                            keep_rename := some false }
  | .DIRECTORY_INOUT => .ok { content_type := some .DIRECTORY,
                              direction := some .INOUT,
                              keep_rename := some false }
  | .FILE_CONCURRENT => .ok { content_type := some .FILE,
                              direction := some .CONCURRENT,
                              keep_rename := some false }
  | .FILE_COMMUTATIVE => .ok { content_type := some .FILE,
                               direction := some .COMMUTATIVE,
                               keep_rename := some false }
  | .FILE_STDIN => .ok { content_type := some .FILE,
                         stream := some .STDIN, keep_rename := some false }
  | .FILE_STDERR => .ok { content_type := some .FILE,
                          stream := some .STDERR, keep_rename := some false }
  | .FILE_STDOUT => .ok { content_type := some .FILE,
                          stream := some .STDOUT, keep_rename := some false }
  | .FILE_IN_STDIN => .ok { content_type := some .FILE,
                            direction := some .IN, stream := some .STDIN,
                            keep_rename := some false }
  | .FILE_IN_STDERR => .ok { content_type := some .FILE,
                             direction := some .IN, stream := some .STDERR,
                             keep_rename := some false }
  | .FILE_IN_STDOUT => .ok { content_type := some .FILE,
                             direction := some .IN, stream := some .STDOUT,
                             keep_rename := some false }
  | .FILE_OUT_STDIN => .ok { content_type := some .FILE,
                             direction := some .OUT, stream := some .STDIN,
                             keep_rename := some false }
  | .FILE_OUT_STDERR => .ok { content_type := some .FILE,
                              direction := some .OUT, stream := some .STDERR,
                              keep_rename := some false }
  | .FILE_OUT_STDOUT => .ok { content_type := some .FILE,
                              direction := some .OUT, stream := some .STDOUT,
                              keep_rename := some false }
  | .FILE_INOUT_STDIN => .ok { content_type := some .FILE,
                               direction := some .INOUT,
                               stream := some .STDIN,
                               keep_rename := some false }
  | .FILE_INOUT_STDERR => .ok { content_type := some .FILE,
                                direction := some .INOUT,
                                stream := some .STDERR,
                                keep_rename := some false }
  | .FILE_INOUT_STDOUT => .ok { content_type := some .FILE,
                                direction := some .INOUT,
                                stream := some .STDOUT,
                                keep_rename := some false }
  | .FILE_CONCURRENT_STDIN => .ok { content_type := some .FILE,
                                    direction := some .CONCURRENT,
                                    stream := some .STDIN,
                                    keep_rename := some false }
  | .FILE_CONCURRENT_STDERR => .ok { content_type := some .FILE,
                                     direction := some .CONCURRENT,
                                     stream := some .STDERR,
                                     keep_rename := some false }
  | .FILE_CONCURRENT_STDOUT => .ok { content_type := some .FILE,
                                     direction := some .CONCURRENT,
                                     stream := some .STDOUT,
                                     keep_rename := some false }
  | .FILE_COMMUTATIVE_STDIN => .ok { content_type := some .FILE,
                                     direction := some .COMMUTATIVE,
                                     stream := some .STDIN,
                                     keep_rename := some false }
  | .FILE_COMMUTATIVE_STDERR => .ok { content_type := some .FILE,
                                      direction := some .COMMUTATIVE,
                                      stream := some .STDERR,
                                      keep_rename := some false }
  | .FILE_COMMUTATIVE_STDOUT => .ok { content_type := some .FILE,
                                      direction := some .COMMUTATIVE,
                                      stream := some .STDOUT,
                                      keep_rename := some false }
  | .COLLECTION => .ok { content_type := some .COLLECTION }
  | .COLLECTION_IN => .ok { content_type := some .COLLECTION,
                            direction := some .IN }
  | .COLLECTION_INOUT => .ok { content_type := some .COLLECTION,
                               direction := some .INOUT }
  | .COLLECTION_OUT => .ok { content_type := some .COLLECTION,
                             direction := some .OUT }
  | .STREAM_IN =>
      match TYPE.attr "EXTERNALParamDictKeys" with
      | none => .error (.attributeError "EXTERNALParamDictKeys")
      | some t => .ok { content_type := some t, direction := some .IN }
  | .STREAM_OUT =>
      match TYPE.attr "EXTERNALParamDictKeys" with
      | none => .error (.attributeError "EXTERNALParamDictKeys")
      | some t => .ok { content_type := some t, direction := some .OUT }
  | .COLLECTION_FILE => .ok { content_type := some .COLLECTION,
                              is_file_collection := some true,
                              keep_rename := some false }
  | .COLLECTION_FILE_IN => .ok { content_type := some .COLLECTION,
                                 direction := some .IN,
                                 is_file_collection := some true,
                                 keep_rename := some false }
  | .COLLECTION_FILE_INOUT => .ok { content_type := some .COLLECTION,
                                    direction := some .INOUT,
                                    is_file_collection := some true,
                                    keep_rename := some false }
  | .COLLECTION_FILE_OUT => .ok { content_type := some .COLLECTION,
                                  direction := some .OUT,
                                  is_file_collection := some true,
                                  keep_rename := some false }

/-- `Parameter(**overlay)`: the defaulted constructor applied to the
keyword set of an overlay. -/
def ParamOverlay.build (o : ParamOverlay) : Parameter :=
  { content_type := o.content_type,
    direction := o.direction.getD DIRECTION.IN,
    stream := o.stream.getD IOSTREAM.UNSPECIFIED,
    keep_rename := o.keep_rename.getD true,
    is_file_collection := o.is_file_collection.getD false }

/-- `parameter.py::get_new_parameter`:
`Parameter(**_param_conversion_dict_[key])`. -/
def get_new_parameter (key : ParamAliasKeys) : Except PyErr Parameter :=
  (param_conversion_dict key).map ParamOverlay.build

/-! ## Executor command loop as an event trace
(`executor.py`, functions `process_message`, `process_task`, `process_ping`,
`process_quit`, `executor`). -/

/-- Observable executor events: queue posts, pipe writes, and the
environment/logger milestones of `process_task`.  Tracing-sink emissions
(`emit_manual_event`) are no-ops towards pipe, queue, environment and
loggers and are not recorded. -/
inductive Ev where
  | readCmd (tokens : List String)
  | bindCpusEv (mask : String)
  | bindGpusEv (mask : String)
  | swapLoggers
  | setupEnvEv
  | executeTask
  | queuePut (msg : String)
  | cleanEnvEv
  | restoreLoggers
  | pipeWrite (msg : String)
  deriving DecidableEq, Repr

/-- Result of the external dispatcher `execute_task` for one task: either it
raises (modelling any unhandled exception inside the `try` block of
`process_task`), or it returns `(exit_value, new_types, new_values,
timed_out, except_msg)` — the pair `(new_types, new_values)` enters the
reply only through `build_return_params_message`, abstracted as the encoded
string `params_msg`. -/
inductive DispatchRes where
  | raises
  | returns (exit_value : Int) (params_msg : String) (except_msg : String)
  deriving DecidableEq, Repr

/-- How one `process_message` call ends: a normal return carrying the
`alive` boolean, or an exception propagating to the caller. -/
inductive StepOutcome where
  | ok (alive : Bool)
  | raised (e : PyErr)
  deriving DecidableEq, Repr

/-- Python `l[-k]` for `k > 0`: `IndexError` (`none`) when `len(l) < k`. -/
def pyNegIndex (l : List String) (k : Nat) : Option String :=
  if l.length < k then none else l.get? (l.length - k)

/-- `executor.py::process_task` as an event trace (lines 486–698):
read the CPU mask (`tokens[-3]`) and GPU mask (`tokens[-2]`); bind CPUs when
the mask is not `"-"` and affinity is supported; bind GPUs when the mask is
not `"-"`; strip the last three tokens; read `job_id` from the stripped
line; swap the loggers to the job files; inside the `try`: set up the
environment and call the dispatcher; on an unhandled exception post
`"EXCEPTION"` to the supervisor queue and return `False`; otherwise clean
the environment, restore the loggers, write the reply and return `True`. -/
def process_task_trace (tokens : List String) (threadAffinity : Bool)
    (d : DispatchRes) : List Ev × StepOutcome :=
  match pyNegIndex tokens 3, pyNegIndex tokens 2 with
  | some cpus, some gpus =>
    let stripped := tokens.take (tokens.length - 3)
    match stripped.get? 1, stripped.get? 2, stripped.get? 3 with
    | some job_id, some _job_out, some _job_err =>
      let pre := (if cpus ≠ "-" ∧ threadAffinity then [Ev.bindCpusEv cpus]
                  else [])
                 ++ (if gpus ≠ "-" then [Ev.bindGpusEv gpus] else [])
                 ++ [Ev.swapLoggers, Ev.setupEnvEv, Ev.executeTask]
      match d with
      | .raises => (pre ++ [Ev.queuePut "EXCEPTION"], .ok false)
      | .returns v p m =>
          (pre ++ [Ev.cleanEnvEv, Ev.restoreLoggers,
                   Ev.pipeWrite (task_reply v m p job_id)], .ok true)
    | _, _, _ => ([], .raised .indexError)
  | _, _ => ([], .raised .indexError)

/-- `executor.py::process_message` (lines 376–446): dispatch on the first
token; `EXECUTE_TASK` → `process_task`; `PING` → write `PONG`, stay alive;
`QUIT` → return `False`; anything else → raise
`PyCOMPSsException("Unexpected message: …")`, which propagates out of the
loop (nothing is posted to the supervisor queue on this path). -/
def process_message (tokens : List String) (threadAffinity : Bool)
    (d : DispatchRes) : List Ev × StepOutcome :=
  match tokens with
  | [] => ([], .raised .indexError)
  | tag :: _ =>
    if tag = EXECUTE_TASK_TAG then process_task_trace tokens threadAffinity d
    else if tag = PING_TAG then ([Ev.pipeWrite PONG_TAG], .ok true)
    else if tag = QUIT_TAG then ([], .ok false)
    else ([], .raised (.unexpectedMessage tokens))

/-- The main executor loop (`executor.py::executor`, lines 319–345), run on
a script of non-empty commands each paired with its dispatcher behaviour:
read a command, process it, and read the next command only if
`process_message` returned `True`.  A `False` return or a propagating
exception ends the loop (the teardown `QUIT` reply after the loop is not
part of any per-command processing). -/
def executor_loop (threadAffinity : Bool) :
    List (List String × DispatchRes) → List Ev
  | [] => []
  | (cmd, d) :: rest =>
    let step := process_message cmd threadAffinity d
    Ev.readCmd cmd :: step.1 ++
      (match step.2 with
       | .ok true => executor_loop threadAffinity rest
       | _ => [])

/-! ## MPMD-MPI decorator core-element configuration
(`mpmd_mpi.py`, methods `_get_programs_params` and
`__configure_core_element__`). -/

/-- Core-element record (`CE` of
`pycompss/runtime/task/core_element.py`, not under `src/`; modelled from
the spec's data model: a mutable container with `impl_type`,
`impl_signature` and `impl_type_args`, created empty by `CE()`). -/
structure CE where
  impl_type : String := ""
  impl_signature : String := ""
  impl_type_args : List String := []
  deriving DecidableEq, Repr

/-- One entry of the `programs` argument of `@mpmd_mpi`: a Python dict with
optional keys `binary`, `params` and `processes` (all carried as strings of
the eventual `impl_type_args`). -/
structure MpmdProgram where
  binary : Option String := none
  params : Option String := none
  processes : Option String := none
  deriving DecidableEq, Repr

/-- The loop body of `mpmd_mpi.py::MPMDMPI._get_programs_params`: the
triples `(binary, params, procs)` appended program by program, where
`params` and `procs` default to `"#"`; a missing or empty (falsy) `binary`
raises `PyCOMPSsException` at the first offending program. -/
def programs_params_triples : List MpmdProgram → Except PyErr (List String)
  | [] => .ok []
  | program :: rest =>
    match program.binary with
    | none => .error (.pycompssException "No binary file provided for MPMD MPI")
    | some binary =>
      if binary = "" then
        .error (.pycompssException "No binary file provided for MPMD MPI")
      else
        (programs_params_triples rest).map
          (fun tail => binary :: program.params.getD "#" ::
                       program.processes.getD "#" :: tail)

/-- `mpmd_mpi.py::MPMDMPI._get_programs_params` (lines 134–156):
`[len(programs)]` followed by the per-program triples.  (The
non-dict-program check is made vacuous by typing `programs` as a list of
`MpmdProgram`.) -/
def get_programs_params (programs : List MpmdProgram) :
    Except PyErr (List String) :=
  (programs_params_triples programs).map
    (fun ts => Nat.repr programs.length :: ts)

/-- `mpmd_mpi.py::MPMDMPI.__configure_core_element__` (lines 158–203):
`impl_type = "MPMDMPI"`, `ppn = str(kwargs.get("processes_per_node", 1))`,
`impl_signature = "MPMDMPI." + ppn`, `impl_args = [runner, ppn, working_dir,
fail_by_exit_value] + programs_params`; if the call's kwargs already carry a
core element it is mutated in place, otherwise a fresh `CE()` is created;
either way the slot holds the configured record afterwards. -/
def configure_core_element (runner : String) (processes_per_node : Option Nat)
    (working_dir : String) (fail_by_exit_value : String)
    (programs : List MpmdProgram) (ceSlot : Option CE) :
    Except PyErr CE :=
  let impl_type := "MPMDMPI"
  let ppn := Nat.repr (processes_per_node.getD 1)
  let impl_signature := String.intercalate "." [impl_type, ppn]
  match get_programs_params programs with
  | .error e => .error e
  | .ok prog_params =>
    let impl_args := [runner, ppn, working_dir, fail_by_exit_value]
                     ++ prog_params
    let ce := ceSlot.getD {}
    .ok { ce with impl_type := impl_type,
                  impl_signature := impl_signature,
                  impl_type_args := impl_args }

/-! ## Streaming client
(`distro_stream.py`, `DistroStreamImpl.close`, `FileDistroStream.poll`,
`ObjectDistroStream.__init__`). -/

/-- Streaming-client exceptions (`distro_stream.py` lines 616–663). -/
inductive StreamErr where
  | registrationException (code : Int) (msg : Option String)
  | backendException (code : Int) (msg : Option String)
  deriving DecidableEq, Repr

/-- The observable outcome of one request through the client handle: after
`wait_processed()`, the request exposes an error code, an error message and
a response message. -/
structure StreamResponse where
  error_code : Int
  error_msg : Option String := none
  response_msg : Option String := none
  deriving DecidableEq, Repr

/-- Python `str(x)` for an optional string (`str(None) = "None"`). -/
def pyOptStr : Option String → String
  | none => "None"
  | some s => s

/-- `distro_stream.py::FileDistroStream.poll` (lines 323–348): non-zero
error code → raise `BackendException`; otherwise return the
whitespace-split response message, or the empty list when the message is
`None`, empty, or the literal `"null"`. -/
def file_stream_poll (r : StreamResponse) : Except StreamErr (List String) :=
  if r.error_code ≠ 0 then
    .error (.backendException r.error_code r.error_msg)
  else
    match r.response_msg with
    | none => .ok []
    | some info =>
      if info ≠ "" ∧ info ≠ "null" then .ok (pySplitWhitespace info)
      else .ok []

/-- `distro_stream.py::DistroStreamImpl.close` (lines 233–248): on a
non-zero error code three error lines are logged; the method always returns
normally (the returned list is the error log). -/
def distro_stream_close (r : StreamResponse) : Except StreamErr (List String) :=
  .ok (if r.error_code ≠ 0 then
         ["ERROR: Cannot close stream",
          " - Internal Error Code: " ++ toString r.error_code,
          " - Internal Error Msg: " ++ pyOptStr r.error_msg]
       else [])

/-- `ObjectDistroStream.TOPIC_REGULAR_MESSAGES_PREFIX`
(`distro_stream.py` line 371). -/
def TOPIC_REGULAR_MESSAGES_PREFIX : String := "regular-messages"

/-- The `kafka_topic_name` assignment of
`distro_stream.py::ObjectDistroStream.__init__` (lines 390–394): start from
the alias; only when the alias is non-empty overwrite with
`TOPIC_REGULAR_MESSAGES_PREFIX + "-" + self.id`, where `id` is the
registration id returned by the server. -/
def object_stream_topic_name (streamAlias : String) (id : String) : String :=
  let kafka_topic_name := streamAlias
  if streamAlias ≠ "" then TOPIC_REGULAR_MESSAGES_PREFIX ++ "-" ++ id
  else kafka_topic_name

/-- Predicate for pipe-write events. -/
def isPipeWrite : Ev → Bool
  | .pipeWrite _ => true
  | _ => false

/-! ## Helper lemmas -/

theorem env_del_ne (E : Env) {k x : String} (h : x ≠ k) : E.del k x = E x :=
  if_neg h

theorem env_del_eq (E : Env) (k : String) : E.del k k = none :=
  if_pos rfl

theorem env_set_ne (E : Env) {k x : String} (v : String) (h : x ≠ k) :
    E.set k v x = E x :=
  if_neg h

theorem env_set_eq (E : Env) (k v : String) : E.set k v k = some v :=
  if_pos rfl

/-- Every character produced by `Nat.digitChar` on a decimal digit is a
digit character, never a dash. -/
theorem digitChar_ne_dash (n : Nat) (hn : n < 10) : Nat.digitChar n ≠ '-' := by
  interval_cases n <;> decide

/-- `Nat.toDigitsCore` in base 10 only ever prepends digit characters. -/
theorem toDigitsCore_ne_dash :
    ∀ (fuel n : Nat) (ds : List Char), (∀ c ∈ ds, c ≠ '-') →
      ∀ c ∈ Nat.toDigitsCore 10 fuel n ds, c ≠ '-' := by
  intro fuel
  induction fuel with
  | zero =>
    intro n ds h c hc
    rw [Nat.toDigitsCore] at hc
    exact h c hc
  | succ fuel ih =>
    intro n ds h c hc
    rw [Nat.toDigitsCore] at hc
    split at hc
    · rcases List.mem_cons.mp hc with h1 | h1
      · subst h1; exact digitChar_ne_dash _ (Nat.mod_lt _ (by omega))
      · exact h c h1
    · refine ih _ _ ?_ c hc
      intro c' hc'
      rcases List.mem_cons.mp hc' with h1 | h1
      · subst h1; exact digitChar_ne_dash _ (Nat.mod_lt _ (by omega))
      · exact h c' h1

/-- The decimal representation of a natural number is never the CPU-mask
sentinel `"-"`. -/
theorem natRepr_ne_dash (n : Nat) : Nat.repr n ≠ "-" := by
  intro h
  have hl : Nat.toDigits 10 n = ['-'] := congrArg String.data h
  have hmem : ('-' : Char) ∈ Nat.toDigits 10 n := by
    rw [hl]; exact List.mem_singleton.mpr rfl
  have hne := toDigitsCore_ne_dash (n + 1) n []
    (by intro c hc; cases hc) '-' (by rw [Nat.toDigits] at hmem; exact hmem)
  exact hne rfl

/-- `clean_environment` leaves every variable other than the five it may
delete untouched. -/
theorem clean_env_other (cpus gpus : String) (E : Env) (x : String)
    (h1 : x ≠ "COMPSS_BINDED_CPUS") (h2 : x ≠ "COMPSS_BINDED_GPUS")
    (h3 : x ≠ "CUDA_VISIBLE_DEVICES") (h4 : x ≠ "GPU_DEVICE_ORDINAL")
    (h5 : x ≠ "COMPSS_HOSTNAMES") :
    clean_environment cpus gpus E x = E x := by
  simp only [clean_environment, apply_ite (fun g : Env => g x),
    env_del_ne _ h5, env_del_ne _ h4, env_del_ne _ h3, env_del_ne _ h2,
    env_del_ne _ h1, ite_self]

/-- `clean_environment` removes the three GPU variables whenever the GPU
mask is not the sentinel. -/
theorem clean_env_gpus (cpus gpus : String) (E : Env) (hg : gpus ≠ "-") :
    clean_environment cpus gpus E "COMPSS_BINDED_GPUS" = none ∧
    clean_environment cpus gpus E "CUDA_VISIBLE_DEVICES" = none ∧
    clean_environment cpus gpus E "GPU_DEVICE_ORDINAL" = none := by
  simp only [clean_environment]
  rw [if_pos hg]
  exact ⟨rfl, rfl, rfl⟩

/-- `clean_environment` leaves `COMPSS_BINDED_CPUS` absent whenever its
presence implies `cpus ≠ "-"`. -/
theorem clean_env_binded_cpus (cpus gpus : String) (E : Env)
    (h : E "COMPSS_BINDED_CPUS" ≠ none → cpus ≠ "-") :
    clean_environment cpus gpus E "COMPSS_BINDED_CPUS" = none := by
  simp only [clean_environment]
  by_cases hmem : Env.mem E "COMPSS_BINDED_CPUS" = true
  · have hcp : cpus ≠ "-" := by
      refine h ?_
      simp only [Env.mem, Option.isSome_iff_ne_none] at hmem
      exact hmem
    rw [if_pos (And.intro hcp hmem)]
    split
    · rfl
    · rfl
  · have hnone : E "COMPSS_BINDED_CPUS" = none := by
      simp only [Env.mem, Option.isSome_iff_ne_none, ne_eq,
        Decidable.not_not] at hmem
      exact hmem
    have hcond : ¬(cpus ≠ "-" ∧ Env.mem E "COMPSS_BINDED_CPUS" = true) :=
      fun hco => hmem hco.2
    rw [if_neg hcond]
    split
    · exact hnone
    · exact hnone

/-! ## Claim theorems -/

/-- C1: for every EXECUTE_TASK command whose dispatcher call returns exit
value `v`, the reply written to the pipe is determined by `v` in exactly
three shapes: `v = 0` → `endTask <job_id> 0 <param-return-encoding>\n`;
`v = 2` → `compssExceptionTask <job_id> <m>\n` with `<m>` the dispatcher's
exception message with every space replaced by an underscore; any other
`v` → `endTask <job_id> <v>\n`. -/
theorem execute_task_reply_shapes (v : Int)
    (job_id params_msg except_msg : String) :
    (v = 0 → task_reply v except_msg params_msg job_id =
        "endTask " ++ job_id ++ " 0 " ++ params_msg ++ "\n")
  ∧ (v = 2 → task_reply v except_msg params_msg job_id =
        "compssExceptionTask " ++ job_id ++ " " ++
          replaceSpacesByUnderscores except_msg ++ "\n")
  ∧ (v ≠ 0 → v ≠ 2 → task_reply v except_msg params_msg job_id =
        "endTask " ++ job_id ++ " " ++ toString v ++ "\n") := by
  refine ⟨fun h0 => ?_, fun h2 => ?_, fun hn0 hn2 => ?_⟩
  · subst h0
    simp only [task_reply, build_successful_message, END_TASK_TAG,
      String.intercalate, String.intercalate.go, String.append_assoc,
      if_pos rfl, ite_true, ite_false,
      show toString (0 : Int) = "0" from rfl,
      show ("endTask " : String) = "endTask" ++ " " from rfl,
      show (" 0 " : String) = " " ++ "0" ++ " " from rfl]
  · subst h2
    simp only [task_reply, build_compss_exception_message,
      COMPSS_EXCEPTION_TAG, String.intercalate, String.intercalate.go,
      String.append_assoc,
      show ((2 : Int) = 0) = False by simp,
      show ((2 : Int) = 2) = True by simp, if_false, if_true,
      show ("compssExceptionTask " : String) =
        "compssExceptionTask" ++ " " from rfl,
      show (" " : String) ++ " " = " " ++ " " from rfl]
  · simp only [task_reply, build_exception_message, END_TASK_TAG,
      String.intercalate, String.intercalate.go, String.append_assoc,
      if_neg hn0, if_neg hn2,
      show ("endTask " : String) = "endTask" ++ " " from rfl]

/-- Witness for C1 at the spec's scenario S2. -/
theorem execute_task_reply_shapes_witness :
    task_reply 2 "boom reason" "" "42" =
      "compssExceptionTask 42 boom_reason\n" := by
  have h := (execute_task_reply_shapes 2 "42" "" "boom reason").2.1 rfl
  rw [h]
  decide

/-- C2 counterexample: a concrete completed task (CPU mask `"0,1"`, GPU
mask `"-"`, one node `host1`, two threads), started from an empty
environment, ends with `COMPSS_NUM_NODES`, `COMPSS_NUM_THREADS` and
`OMP_NUM_THREADS` still present — the claim says every variable the
executor wrote is absent before the next command. -/
theorem clean_environment_leaves_num_vars :
    process_task_env ⟨true, 0, "0,1", "-", 1, "host1", "2"⟩ Env.empty
        "COMPSS_NUM_NODES" = some "1"
  ∧ process_task_env ⟨true, 0, "0,1", "-", 1, "host1", "2"⟩ Env.empty
        "COMPSS_NUM_THREADS" = some "2"
  ∧ process_task_env ⟨true, 0, "0,1", "-", 1, "host1", "2"⟩ Env.empty
        "OMP_NUM_THREADS" = some "2" :=
  ⟨rfl, rfl, rfl⟩

/-- C2 (amended): after every completed task, `COMPSS_BINDED_CPUS` (when
the CPU mask was not `"-"`), the three GPU variables (when the GPU mask was
not `"-"`) and `COMPSS_HOSTNAMES` (always) are absent from the environment;
`COMPSS_NUM_NODES`, `COMPSS_NUM_THREADS` and `OMP_NUM_THREADS` are *not*
cleaned and remain set to the values of the just-finished task. -/
theorem clean_environment_per_task (a : TaskEnvArgs) (e : Env) :
    (a.cpusMask ≠ "-" →
        process_task_env a e "COMPSS_BINDED_CPUS" = none)
  ∧ (a.gpusMask ≠ "-" →
        process_task_env a e "COMPSS_BINDED_GPUS" = none
      ∧ process_task_env a e "CUDA_VISIBLE_DEVICES" = none
      ∧ process_task_env a e "GPU_DEVICE_ORDINAL" = none)
  ∧ process_task_env a e "COMPSS_HOSTNAMES" = none
  ∧ process_task_env a e "COMPSS_NUM_NODES" = some (Nat.repr a.cn)
  ∧ process_task_env a e "COMPSS_NUM_THREADS" = some a.cu
  ∧ process_task_env a e "OMP_NUM_THREADS" = some a.cu := by
  obtain ⟨ta, raf, cm, gm, cn, names, cu⟩ := a
  refine ⟨?_, ?_, ?_, ?_, ?_, ?_⟩
  · intro hc
    simp only [process_task_env]
    refine clean_env_binded_cpus _ _ _ (fun _ => ?_)
    by_cases hta : ta
    · simp only [if_pos hta]; exact natRepr_ne_dash raf
    · simp only [if_neg hta]; exact hc
  · intro hg
    simp only [process_task_env]
    exact clean_env_gpus _ _ _ hg
  · rfl
  · simp only [process_task_env]
    rw [clean_env_other _ _ _ _ (by decide) (by decide) (by decide)
      (by decide) (by decide)]
    rfl
  · simp only [process_task_env]
    rw [clean_env_other _ _ _ _ (by decide) (by decide) (by decide)
      (by decide) (by decide)]
    rfl
  · simp only [process_task_env]
    rw [clean_env_other _ _ _ _ (by decide) (by decide) (by decide)
      (by decide) (by decide)]
    rfl

/-- Witness for C2 (amended) at a concrete task. -/
theorem clean_environment_per_task_witness :
    ("0,1" : String) ≠ "-" ∧ ("0" : String) ≠ "-"
  ∧ process_task_env ⟨true, 3, "0,1", "0", 1, "host1", "2"⟩ Env.empty
        "COMPSS_BINDED_CPUS" = none
  ∧ process_task_env ⟨true, 3, "0,1", "0", 1, "host1", "2"⟩ Env.empty
        "COMPSS_BINDED_GPUS" = none
  ∧ process_task_env ⟨true, 3, "0,1", "0", 1, "host1", "2"⟩ Env.empty
        "COMPSS_HOSTNAMES" = none := by
  have h := clean_environment_per_task ⟨true, 3, "0,1", "0", 1, "host1", "2"⟩
    Env.empty
  exact ⟨by decide, by decide, h.1 (by decide), (h.2.1 (by decide)).1,
    h.2.2.1⟩

/-- C3 counterexample: the claim says an `int` is typed `INT` iff it lies
in the signed 32-bit range (so `2^40` should be `LONG`); the code compares
against `sys.maxsize` and returns `INT` for `2^40`. -/
theorem infer_type_int_bound_counterexample :
    ¬ (get_compss_type (PyValue.intV (2 ^ 40)) 0 = TYPE.INT ↔
        (JAVA_MIN_INT ≤ (2 ^ 40 : Int) ∧ (2 ^ 40 : Int) ≤ JAVA_MAX_INT)) := by
  decide

/-- C3 (amended): for every Python integer (not a bool, persistent or
numpy object), the inferred type is `INT` iff the value is strictly below
`PYTHON_MAX_INT = sys.maxsize = 2^63 - 1`, and `LONG` otherwise; there is
no lower bound, and in particular `2^40` is typed `INT`. -/
theorem infer_type_int_bound (n : Int) (depth : Int) :
    (get_compss_type (PyValue.intV n) depth = TYPE.INT ↔ n < PYTHON_MAX_INT)
  ∧ (get_compss_type (PyValue.intV n) depth = TYPE.LONG ↔
      PYTHON_MAX_INT ≤ n)
  ∧ get_compss_type (PyValue.intV (2 ^ 40)) depth = TYPE.INT := by
  refine ⟨?_, ?_, ?_⟩ <;>
    simp only [get_compss_type, has_id, isinstance_bool, isinstance_str,
      isinstance_int, isinstance_float, pyIntValue, IS_PYTHON3,
      Bool.false_eq_true, if_false, if_true, reduceCtorEq, ite_true,
      ite_false, cond_true, cond_false]
  · by_cases h : n < PYTHON_MAX_INT <;> simp [h]
  · by_cases h : n < PYTHON_MAX_INT
    · simp [h]
    · simp [h]
      omega
  · norm_num [PYTHON_MAX_INT]

/-- C4 counterexample: on the command `"FOO bar"` the trace is empty — in
particular nothing, and certainly not the token `"EXCEPTION"`, is posted
to the supervisor queue — and `process_message` ends by raising the
unexpected-message exception rather than returning. -/
theorem unknown_command_counterexample :
    Ev.queuePut "EXCEPTION" ∉
      (process_message ["FOO", "bar"] true DispatchRes.raises).1
  ∧ (process_message ["FOO", "bar"] true DispatchRes.raises).2 =
      StepOutcome.raised (PyErr.unexpectedMessage ["FOO", "bar"]) := by
  constructor
  · intro h
    simp [process_message, EXECUTE_TASK_TAG, PING_TAG, QUIT_TAG] at h
  · rfl

/-- C4 (amended): if the first token of a command is none of
`EXECUTE_TASK`, `PING`, `QUIT`, then `process_message` posts nothing and
writes nothing (its trace is empty) and raises
`PyCOMPSsException("Unexpected message: …")`; the exception propagates, so
the loop produces no further event and the executor exits.  (The literal
`"EXCEPTION"` is posted to the supervisor queue only on failures inside
task processing, `executor.py` lines 653–660, not on this path.) -/
theorem unknown_command_raises (tag : String) (rest : List String)
    (ta : Bool) (d : DispatchRes)
    (script : List (List String × DispatchRes))
    (h1 : tag ≠ EXECUTE_TASK_TAG) (h2 : tag ≠ PING_TAG)
    (h3 : tag ≠ QUIT_TAG) :
    process_message (tag :: rest) ta d =
      ([], StepOutcome.raised (PyErr.unexpectedMessage (tag :: rest)))
  ∧ executor_loop ta ((tag :: rest, d) :: script) =
      [Ev.readCmd (tag :: rest)] := by
  have hmsg : process_message (tag :: rest) ta d =
      ([], StepOutcome.raised (PyErr.unexpectedMessage (tag :: rest))) := by
    simp [process_message, h1, h2, h3]
  refine ⟨hmsg, ?_⟩
  simp [executor_loop, hmsg]

/-- Witness for C4 (amended) at the spec's scenario S6. -/
theorem unknown_command_raises_witness :
    process_message ["FOO", "bar"] true DispatchRes.raises =
      ([], StepOutcome.raised (PyErr.unexpectedMessage ["FOO", "bar"]))
  ∧ executor_loop true [(["FOO", "bar"], DispatchRes.raises)] =
      [Ev.readCmd ["FOO", "bar"]] :=
  unknown_command_raises "FOO" ["bar"] true DispatchRes.raises []
    (by decide) (by decide) (by decide)

/-- C5: constructing a parameter record from the `STREAM_IN` (or
`STREAM_OUT`) alias does not succeed: the conversion-dict entry evaluates
`TYPE.EXTERNALParamDictKeys.StdIOStream`, and the `TYPE` class has no
attribute `EXTERNALParamDictKeys`, so an `AttributeError` is raised instead
of producing a record with content type `EXTERNAL_STREAM`. -/
theorem stream_alias_attribute_error :
    get_new_parameter ParamAliasKeys.STREAM_IN =
      Except.error (PyErr.attributeError "EXTERNALParamDictKeys")
  ∧ get_new_parameter ParamAliasKeys.STREAM_OUT =
      Except.error (PyErr.attributeError "EXTERNALParamDictKeys") :=
  ⟨rfl, rfl⟩

/-- C6: `get_compss_type` classifies in a fixed order: booleans are typed
`BOOL` at every depth (never `INT`, although `bool` is a subtype of `int`);
strings are typed `STRING` even when `depth > 0`; and a non-string
iterable that is not persistent, numpy, bool, string, int or float is
typed `COLLECTION` when `depth > 0` and `OBJECT` when `depth = 0`. -/
theorem infer_type_order (b : Bool) (s : String) (sz : Nat) (depth : Int) :
    get_compss_type (PyValue.boolV b) depth = TYPE.BOOLEAN
  ∧ get_compss_type (PyValue.boolV b) depth ≠ TYPE.INT
  ∧ get_compss_type (PyValue.strV s) depth = TYPE.STRING
  ∧ (depth > 0 → get_compss_type (PyValue.iterV sz) depth = TYPE.COLLECTION)
  ∧ (depth = 0 → get_compss_type (PyValue.iterV sz) depth = TYPE.OBJECT) := by
  refine ⟨rfl, fun h => TYPE.noConfusion h, rfl, fun hd => ?_, fun hd => ?_⟩
  · simp [get_compss_type, has_id, isinstance_bool, isinstance_str,
      isinstance_int, isinstance_float, is_basic_iterable, hd]
  · subst hd
    rfl

/-- Witness for C6 at the spec's scenario I3. -/
theorem infer_type_order_witness :
    get_compss_type (PyValue.boolV true) 0 = TYPE.BOOLEAN
  ∧ get_compss_type (PyValue.strV "x") 1 = TYPE.STRING
  ∧ (1 : Int) > 0 ∧ get_compss_type (PyValue.iterV 2) 1 = TYPE.COLLECTION
  ∧ get_compss_type (PyValue.iterV 2) 0 = TYPE.OBJECT := by
  have h1 := infer_type_order true "x" 2 1
  have h0 := infer_type_order true "x" 2 0
  exact ⟨h0.1, h1.2.2.1, by decide, h1.2.2.2.1 (by decide),
    h0.2.2.2.2 rfl⟩

/-- When every program carries a non-empty binary, the per-program triples
of `_get_programs_params` are exactly `(binary, params, procs)` in program
order. -/
theorem programs_params_triples_ok (programs : List MpmdProgram)
    (h : ∀ p ∈ programs, p.binary ≠ none ∧ p.binary ≠ some "") :
    programs_params_triples programs =
      Except.ok (programs.flatMap fun p =>
        [p.binary.getD "", p.params.getD "#", p.processes.getD "#"]) := by
  induction programs with
  | nil => rfl
  | cons p rest ih =>
    obtain ⟨hb1, hb2⟩ := h p (List.mem_cons_self p rest)
    match hp : p.binary with
    | none => exact absurd hp hb1
    | some b =>
      have hbne : b ≠ "" := by
        intro hb
        exact hb2 (hb ▸ hp)
      simp [programs_params_triples, hp, hbne, Except.map,
        ih (fun q hq => h q (List.mem_cons_of_mem _ hq))]

/-- C7: `@mpmd_mpi` configures the core element with
`impl_signature = "MPMDMPI.<ppn>"` (`processes_per_node` defaulting to 1)
and `impl_type_args = [runner, ppn, working_dir, fail_by_exit_value,
program_count]` followed by one `(binary, params, procs)` triple per
program, `params` and `procs` defaulting to `"#"`; the configured record
is stored in the kwargs slot whether a core element was already there
(mutated in place) or not (fresh `CE()`). -/
theorem mpmd_mpi_core_element (runner : String) (ppn? : Option Nat)
    (wd fbev : String) (programs : List MpmdProgram) (ceSlot : Option CE)
    (h : ∀ p ∈ programs, p.binary ≠ none ∧ p.binary ≠ some "") :
    configure_core_element runner ppn? wd fbev programs ceSlot =
      Except.ok
        { impl_type := "MPMDMPI"
          impl_signature := "MPMDMPI." ++ Nat.repr (ppn?.getD 1)
          impl_type_args :=
            runner :: Nat.repr (ppn?.getD 1) :: wd :: fbev ::
              Nat.repr programs.length ::
              (programs.flatMap fun p =>
                [p.binary.getD "", p.params.getD "#",
                 p.processes.getD "#"]) } := by
  simp only [configure_core_element, get_programs_params,
    programs_params_triples_ok programs h, Except.map, String.intercalate,
    String.intercalate.go, String.append_assoc,
    show ("MPMDMPI." : String) = "MPMDMPI" ++ "." from rfl]
  rfl

/-- Witness for C7 with two programs, one omitting `params`, the other
omitting `processes`, and no pre-existing core element. -/
theorem mpmd_mpi_core_element_witness :
    configure_core_element "mpirun" none "/tmp" "True"
        [⟨some "a.out", none, some "2"⟩, ⟨some "b.out", some "-x 1", none⟩]
        none =
      Except.ok ⟨"MPMDMPI", "MPMDMPI.1",
        ["mpirun", "1", "/tmp", "True", "2",
         "a.out", "#", "2", "b.out", "-x 1", "#"]⟩ := by
  refine (mpmd_mpi_core_element "mpirun" none "/tmp" "True"
    [⟨some "a.out", none, some "2"⟩, ⟨some "b.out", some "-x 1", none⟩]
    none ?_).trans (by rfl)
  intro p hp
  simp only [List.mem_cons, List.not_mem_nil, or_false] at hp
  rcases hp with h | h <;> subst h <;> exact ⟨by decide, by decide⟩

/-- C8: for a file stream, `poll` raises `BackendException` iff the
response error code is non-zero; with error code zero it returns the empty
list when the response message is `None`, empty or `"null"`, and the
whitespace-split filename list otherwise; `close` never raises — on a
non-zero error code it logs the error lines and returns normally. -/
theorem file_stream_poll_close_errors (r : StreamResponse) :
    ((∃ err, file_stream_poll r = Except.error err) ↔ r.error_code ≠ 0)
  ∧ (r.error_code = 0 →
       (r.response_msg = none ∨ r.response_msg = some "" ∨
        r.response_msg = some "null") →
       file_stream_poll r = Except.ok [])
  ∧ (r.error_code = 0 → ∀ s, r.response_msg = some s → s ≠ "" →
       s ≠ "null" → file_stream_poll r = Except.ok (pySplitWhitespace s))
  ∧ (∃ logs, distro_stream_close r = Except.ok logs)
  ∧ (r.error_code ≠ 0 →
       ∃ logs, distro_stream_close r = Except.ok logs ∧ logs ≠ []) := by
  refine ⟨⟨?_, ?_⟩, ?_, ?_, ⟨_, rfl⟩, ?_⟩
  · rintro ⟨err, herr⟩
    intro h0
    rcases hm : (r.response_msg : Option String) with _ | info <;>
      simp only [file_stream_poll, h0, hm, ne_eq, not_true_eq_false,
        if_false, ite_false] at herr
    · exact Except.noConfusion herr
    · split_ifs at herr
  · intro h
    exact ⟨StreamErr.backendException r.error_code r.error_msg,
      by simp [file_stream_poll, h]⟩
  · intro h0 hm
    rcases hm with hm | hm | hm <;> simp [file_stream_poll, h0, hm]
  · intro h0 s hs hne1 hne2
    simp [file_stream_poll, h0, hs, hne1, hne2]
  · intro h
    refine ⟨_, rfl, ?_⟩
    rw [if_pos h]
    simp

/-- Witness for C8 at a failing and a succeeding poll and a failing
close. -/
theorem file_stream_poll_close_errors_witness :
    (5 : Int) ≠ 0
  ∧ (∃ err, file_stream_poll ⟨5, some "oops", none⟩ = Except.error err)
  ∧ file_stream_poll ⟨0, none, some "f1 f2"⟩ = Except.ok ["f1", "f2"]
  ∧ (∃ logs, distro_stream_close ⟨5, some "oops", none⟩ = Except.ok logs ∧
       logs ≠ []) := by
  have h5 := file_stream_poll_close_errors ⟨5, some "oops", none⟩
  have h0 := file_stream_poll_close_errors ⟨0, none, some "f1 f2"⟩
  refine ⟨by decide, h5.1.mpr (by decide), ?_, h5.2.2.2.2 (by decide)⟩
  have hs := h0.2.2.1 rfl "f1 f2" rfl (by decide) (by decide)
  rw [hs]
  rfl

/-- C10: an `ObjectDistroStream` constructed with the default empty alias
keeps `kafka_topic_name` equal to the empty string; the topic
`regular-messages-<stream-id>` is assigned only when a non-empty alias is
supplied. -/
theorem object_stream_default_alias_topic (id : String) :
    object_stream_topic_name "" id = ""
  ∧ ∀ a : String, a ≠ "" →
      object_stream_topic_name a id = "regular-messages-" ++ id := by
  constructor
  · rfl
  · intro a ha
    simp only [object_stream_topic_name, if_pos ha,
      TOPIC_REGULAR_MESSAGES_PREFIX, String.append_assoc,
      show ("regular-messages-" : String) =
        "regular-messages" ++ "-" from rfl]

/-- Witness for C10 at a concrete stream id and alias. -/
theorem object_stream_default_alias_topic_witness :
    object_stream_topic_name "" "123" = ""
  ∧ ("myAlias" : String) ≠ ""
  ∧ object_stream_topic_name "myAlias" "123" = "regular-messages-123" := by
  have h := object_stream_default_alias_topic "123"
  exact ⟨h.1, by decide, (h.2 "myAlias" (by decide)).trans (by decide)⟩

/-- C9: every EXECUTE_TASK consumed by the loop that completes without an
unhandled exception produces a trace `pre ++ [cleanEnv, restoreLoggers,
pipeWrite reply]` where `pre` contains no pipe write: exactly one reply is
written, it is written after the environment cleanup and after the logger
restoration, and — as the loop equation shows — before any event of the
rest of the script, in particular before the next command is read. -/
theorem execute_task_single_reply (restTokens : List String) (ta : Bool)
    (v : Int) (p m : String) (job_id job_out job_err cpus gpus : String)
    (script : List (List String × DispatchRes))
    (h3 : pyNegIndex (EXECUTE_TASK_TAG :: restTokens) 3 = some cpus)
    (h2 : pyNegIndex (EXECUTE_TASK_TAG :: restTokens) 2 = some gpus)
    (hj : ((EXECUTE_TASK_TAG :: restTokens).take
            ((EXECUTE_TASK_TAG :: restTokens).length - 3)).get? 1 =
          some job_id)
    (ho : ((EXECUTE_TASK_TAG :: restTokens).take
            ((EXECUTE_TASK_TAG :: restTokens).length - 3)).get? 2 =
          some job_out)
    (he : ((EXECUTE_TASK_TAG :: restTokens).take
            ((EXECUTE_TASK_TAG :: restTokens).length - 3)).get? 3 =
          some job_err) :
    ∃ pre,
      process_task_trace (EXECUTE_TASK_TAG :: restTokens) ta
          (DispatchRes.returns v p m) =
        (pre ++ [Ev.cleanEnvEv, Ev.restoreLoggers,
                 Ev.pipeWrite (task_reply v m p job_id)], StepOutcome.ok true)
      ∧ (∀ msg, Ev.pipeWrite msg ∉ pre)
      ∧ (pre ++ [Ev.cleanEnvEv, Ev.restoreLoggers,
           Ev.pipeWrite (task_reply v m p job_id)]).countP isPipeWrite = 1
      ∧ executor_loop ta ((EXECUTE_TASK_TAG :: restTokens,
            DispatchRes.returns v p m) :: script) =
          (Ev.readCmd (EXECUTE_TASK_TAG :: restTokens) ::
            (pre ++ [Ev.cleanEnvEv, Ev.restoreLoggers,
                     Ev.pipeWrite (task_reply v m p job_id)]))
          ++ executor_loop ta script := by
  have htr : process_task_trace (EXECUTE_TASK_TAG :: restTokens) ta
      (DispatchRes.returns v p m) =
      ((if cpus ≠ "-" ∧ ta = true then [Ev.bindCpusEv cpus] else [])
       ++ (if gpus ≠ "-" then [Ev.bindGpusEv gpus] else [])
       ++ [Ev.swapLoggers, Ev.setupEnvEv, Ev.executeTask]
       ++ [Ev.cleanEnvEv, Ev.restoreLoggers,
           Ev.pipeWrite (task_reply v m p job_id)], StepOutcome.ok true) := by
    simp only [process_task_trace, h3, h2, hj, ho, he, List.append_assoc]
  refine ⟨(if cpus ≠ "-" ∧ ta = true then [Ev.bindCpusEv cpus] else [])
          ++ (if gpus ≠ "-" then [Ev.bindGpusEv gpus] else [])
          ++ [Ev.swapLoggers, Ev.setupEnvEv, Ev.executeTask],
        by simpa [List.append_assoc] using htr, ?_, ?_, ?_⟩
  · intro msg hmem
    simp only [List.mem_append, List.mem_cons, List.not_mem_nil,
      or_false] at hmem
    rcases hmem with (hm | hm) | hm | hm | hm
    · split at hm <;> simp_all
    · split at hm <;> simp_all
    · exact Ev.noConfusion hm
    · exact Ev.noConfusion hm
    · exact Ev.noConfusion hm
  · by_cases c1 : cpus ≠ "-" ∧ ta = true <;> by_cases c2 : gpus ≠ "-" <;>
      simp [c1, c2, List.countP_cons, List.countP_nil, List.countP_append,
        isPipeWrite]
  · have hmsg : process_message (EXECUTE_TASK_TAG :: restTokens) ta
        (DispatchRes.returns v p m) =
        process_task_trace (EXECUTE_TASK_TAG :: restTokens) ta
          (DispatchRes.returns v p m) := by
      simp [process_message]
    simp only [executor_loop, hmsg, htr, List.cons_append,
      List.append_assoc]

/-- Witness for C9 at the spec's scenario S1 (dispatcher returns exit
value 0 with empty encoded parameters). -/
theorem execute_task_single_reply_witness :
    ∃ pre,
      process_task_trace (EXECUTE_TASK_TAG :: ["42", "/t/o", "/t/e", "false",
          "42", "false", "null", "METHOD", "mod", "fn", "0", "1", "host1",
          "2", "false", "null", "0", "0,1", "-", "reserved"]) true
          (DispatchRes.returns 0 "" "") =
        (pre ++ [Ev.cleanEnvEv, Ev.restoreLoggers,
                 Ev.pipeWrite (task_reply 0 "" "" "42")], StepOutcome.ok true)
      ∧ (∀ msg, Ev.pipeWrite msg ∉ pre)
      ∧ (pre ++ [Ev.cleanEnvEv, Ev.restoreLoggers,
           Ev.pipeWrite (task_reply 0 "" "" "42")]).countP isPipeWrite = 1
      ∧ executor_loop true ((EXECUTE_TASK_TAG :: ["42", "/t/o", "/t/e",
            "false", "42", "false", "null", "METHOD", "mod", "fn", "0", "1",
            "host1", "2", "false", "null", "0", "0,1", "-", "reserved"],
            DispatchRes.returns 0 "" "") :: []) =
          (Ev.readCmd (EXECUTE_TASK_TAG :: ["42", "/t/o", "/t/e", "false",
              "42", "false", "null", "METHOD", "mod", "fn", "0", "1",
              "host1", "2", "false", "null", "0", "0,1", "-", "reserved"]) ::
            (pre ++ [Ev.cleanEnvEv, Ev.restoreLoggers,
                     Ev.pipeWrite (task_reply 0 "" "" "42")]))
          ++ executor_loop true [] :=
  execute_task_single_reply ["42", "/t/o", "/t/e", "false", "42", "false",
    "null", "METHOD", "mod", "fn", "0", "1", "host1", "2", "false", "null",
    "0", "0,1", "-", "reserved"] true 0 "" "" "42" "/t/o" "/t/e" "0,1" "-"
    [] rfl rfl rfl rfl rfl

end PyCompss
